import Mathlib

/-!
Shallow embedding of `src/authentik/stages/password/stage.py` (authentik
password stage): the backend-chain `authenticate` function, the
`PasswordStageView` challenge/response handlers (`get_challenge`,
`challenge_invalid`, `challenge_valid`), and the per-session failed-attempt
counter with its lockout threshold.

External collaborators (Django auth backends, the session store, the flow
executor, the recovery-flow query) are modelled at their interface boundary:
a backend is a function from credentials to a three-way result, the session
is the single counter key the stage touches, and the plan context is the two
keys the stage reads or writes.

Outcome naming follows the specification:
  * `Outcome.stageOk`        models `executor.stage_ok()`;
  * `Outcome.stageInvalid`   models `super().challenge_invalid(response)`
    (the challenge is re-rendered with a field error);
  * `Outcome.stageCancelled` models `executor.stage_invalid()`
    (the enclosing pipeline is cancelled).
-/

namespace Authentik

/-- A user object (`authentik.core.models.User`): the username used as the
backend identifier, and the `backend` attribute that `authenticate` writes
(`user.backend = backend_path`, line 48 of `stage.py`). -/
structure User where
  username : String
  backend : Option String := none
deriving DecidableEq

/-- The keyword credentials passed to `authenticate`: in `challenge_valid`
the dict is `{"password": response.validated_data.get("password", None),
"username": pending_user.username}`. -/
structure Credentials where
  username : String
  password : Option String
deriving DecidableEq

/-- Django's sentinel value substituted for sensitive credential values. -/
def CLEANSED_SUBSTITUTE : String := "********************"

/-- Credentials after sanitization, as carried by the failure signal. -/
structure CleanedCredentials where
  username : String
  password : String
deriving DecidableEq

/-- Modelled from the spec: Django's `_clean_credentials` (imported by
`stage.py` but not part of this repository) scrubs values of sensitive keys
(the `password` key matches the sensitive-key pattern, `username` does not),
so the password value is replaced by the cleansed substitute and the
username is retained. -/
def cleanCredentials (credentials : Credentials) : CleanedCredentials :=
  ⟨credentials.username, CLEANSED_SUBSTITUTE⟩

/-- What a resolved backend's `authenticate(request, **credentials)` does:
return `None` (`noUser`), return a user object (`found`), or raise
`PermissionDenied` (`denied`). -/
inductive BackendBehavior where
  | noUser : BackendBehavior
  | found : User → BackendBehavior
  | denied : BackendBehavior
deriving DecidableEq

/-- The environment resolving a backend path string: `path_to_class` plus
instantiation. `none` models an `ImportError` on resolution. -/
def BackendEnv : Type := String → Option (Credentials → BackendBehavior)

/-- Observable events emitted by `authenticate`: the `user_login_failed`
signal, fired with sanitized credentials when every backend is exhausted. -/
inductive Event where
  | loginFailed : CleanedCredentials → Event
deriving DecidableEq

/-- Result of the backend chain: a user (with `backend` annotated), a
propagated `PermissionDenied`, or `None` after exhausting all backends. -/
inductive AuthResult where
  | ok : User → AuthResult
  | denied : AuthResult
  | noneFound : AuthResult
deriving DecidableEq

/-- Full observable output of one `authenticate` call: the returned value
(or propagated exception), the trace of backends whose `authenticate`
method was actually invoked, in order, and the emitted signals. -/
structure AuthOutput where
  result : AuthResult
  invoked : List String
  events : List Event
deriving DecidableEq

/-- `authenticate` (lines 30-55 of `stage.py`): walk the ordered backend
list; skip unresolvable backends (`ImportError` → `continue`); on `None`
continue to the next backend; on a user, annotate it with the backend path
and return; a `PermissionDenied` raised by a backend propagates (there is no
handler in the loop). If the list is exhausted, fire `user_login_failed`
with cleaned credentials and return `None`. -/
def authenticate (env : BackendEnv) (backends : List String)
    (credentials : Credentials) : AuthOutput :=
  match backends with
  | [] => ⟨.noneFound, [], [.loginFailed (cleanCredentials credentials)]⟩
  | backend_path :: rest =>
    match env backend_path with
    | none => authenticate env rest credentials
    | some backend =>
      match backend credentials with
      | .noUser =>
        let out := authenticate env rest credentials
        ⟨out.result, backend_path :: out.invoked, out.events⟩
      | .found u => ⟨.ok { u with backend := some backend_path },
          [backend_path], []⟩
      | .denied => ⟨.denied, [backend_path], []⟩

/-- The session as the stage sees it: the single `user_invalid_tries` key
(`SESSION_INVALID_TRIES`); `none` means the key is absent. -/
structure Session where
  user_invalid_tries : Option Nat
deriving DecidableEq

/-- The two plan-context keys the stage touches: `pending_user`
(`PLAN_CONTEXT_PENDING_USER`) and `user_backend`
(`PLAN_CONTEXT_AUTHENTICATION_BACKEND`). -/
structure PlanContext where
  pending_user : Option User
  user_backend : Option String
deriving DecidableEq

/-- Session plus plan context: the mutable state a stage call can touch. -/
structure StageState where
  session : Session
  context : PlanContext
deriving DecidableEq

/-- The stage configuration (`PasswordStage` model): the ordered backend
list and the `failed_attempts_before_cancel` threshold. -/
structure PasswordStage where
  backends : List String
  failed_attempts_before_cancel : Nat
deriving DecidableEq

/-- A validated challenge response; `password` is
`response.validated_data.get("password", None)`. -/
structure Response where
  password : Option String
deriving DecidableEq

/-- The three terminal signals a handler returns to the executor. -/
inductive Outcome where
  | stageOk : Outcome
  | stageInvalid : Outcome
  | stageCancelled : Outcome
deriving DecidableEq

/-- `PasswordStageView.challenge_invalid` (lines 100-112): initialize the
session counter to 0 if absent, increment it, and if it now strictly
exceeds `failed_attempts_before_cancel`, delete the key and cancel the
pipeline; otherwise re-render the challenge. Returns the updated session
and the outcome. -/
def challenge_invalid (failed_attempts_before_cancel : Nat) (s : Session) :
    Session × Outcome :=
  let tries := s.user_invalid_tries.getD 0 + 1
  if tries > failed_attempts_before_cancel then
    (⟨none⟩, .stageCancelled)
  else
    (⟨some tries⟩, .stageInvalid)

/-- Full observable output of one `challenge_valid` call: the new state,
the outcome returned to the executor, whether the backend-chain
`authenticate` was invoked at all, which backends it invoked, and the
events it emitted. -/
structure StepResult where
  state : StageState
  outcome : Outcome
  authenticatorCalled : Bool
  invoked : List String
  events : List Event
deriving DecidableEq

/-- `PasswordStageView.challenge_valid` (lines 114-149): cancel immediately
when `pending_user` is absent from the plan context; otherwise call
`authenticate` with the pending user's username and the submitted password.
`PermissionDenied` → cancel, touching nothing. `None` → route through
`challenge_invalid` (lockout counter). A user → overwrite `pending_user`,
record `user_backend` from the user's annotated backend, and return ok. -/
def challenge_valid (env : BackendEnv) (stage : PasswordStage)
    (st : StageState) (response : Response) : StepResult :=
  match st.context.pending_user with
  | none => ⟨st, .stageCancelled, false, [], []⟩
  | some pending_user =>
    let out := authenticate env stage.backends
      ⟨pending_user.username, response.password⟩
    match out.result with
    | .denied => ⟨st, .stageCancelled, true, out.invoked, out.events⟩
    | .noneFound =>
      let step := challenge_invalid stage.failed_attempts_before_cancel
        st.session
      ⟨⟨step.1, st.context⟩, step.2, true, out.invoked, out.events⟩
    | .ok u =>
      ⟨⟨st.session, ⟨some u, u.backend⟩⟩, .stageOk, true,
        out.invoked, out.events⟩

/-- Flow designations (`authentik.flows.models.FlowDesignation`), reduced
to the distinction `get_challenge` queries: recovery or not. -/
inductive FlowDesignation where
  | authentication : FlowDesignation
  | enrollment : FlowDesignation
  | recovery : FlowDesignation
  | other : FlowDesignation
deriving DecidableEq

/-- A flow as `get_challenge` sees it: its slug and its designation. -/
structure Flow where
  slug : String
  designation : FlowDesignation
deriving DecidableEq

/-- The `PasswordChallenge` payload: static `type`/`component` fields plus
the three optional `initial_data` fields `get_challenge` may set. `none`
models an absent field. -/
structure PasswordChallenge where
  challengeType : String
  component : String
  pending_user : Option String
  pending_user_avatar : Option String
  recovery_url : Option String
deriving DecidableEq

/-- `PasswordStageView.get_challenge` (lines 77-98): always construct the
challenge payload; if a pending user exists, fill in its username and
avatar; if any recovery-designated flow exists, fill in the recovery URL
from the first one. `avatarOf` models `avatar(pending_user)` and
`reverseUrl` models `reverse("authentik_flows:flow-executor-shell", ...)`
applied to the flow slug. -/
def get_challenge (context : PlanContext) (flows : List Flow)
    (avatarOf : User → String) (reverseUrl : String → String) :
    PasswordChallenge :=
  let base : PasswordChallenge :=
    ⟨"native", "ak-stage-password", none, none, none⟩
  let withUser :=
    match context.pending_user with
    | some pending_user =>
      { base with
        pending_user := some pending_user.username
        pending_user_avatar := some (avatarOf pending_user) }
    | none => base
  match flows.filter (fun f => f.designation = FlowDesignation.recovery) with
  | [] => withUser
  | f :: _ => { withUser with recovery_url := some (reverseUrl f.slug) }

/-- What the stage does when the executor requests a challenge: either a
built challenge payload or a cancellation of the pipeline. The source's
`get_challenge` has no cancellation path, so `issue_challenge` always
wraps the built payload; the constructor `cancelled` exists to state and
refute the claim that challenge issuance short-circuits. -/
inductive ChallengeIssue where
  | challenge : PasswordChallenge → ChallengeIssue
  | cancelled : ChallengeIssue
deriving DecidableEq

/-- Challenge issuance as implemented: unconditionally build and return
the challenge from `get_challenge`. -/
def issue_challenge (context : PlanContext) (flows : List Flow)
    (avatarOf : User → String) (reverseUrl : String → String) :
    ChallengeIssue :=
  .challenge (get_challenge context flows avatarOf reverseUrl)

/-- Iterated `challenge_invalid`: the session after `k` consecutive invalid
submissions, together with the outcome of each call in order. -/
def run_invalid (threshold : Nat) : Nat → Session → Session × List Outcome
  | 0, s => (s, [])
  | k + 1, s =>
    let step := challenge_invalid threshold s
    let rest := run_invalid threshold k step.1
    (rest.1, step.2 :: rest.2)

/-- Iterated `challenge_valid`: the state after `k` consecutive submissions
of the same response, together with the outcome of each call in order. -/
def run_valid (env : BackendEnv) (stage : PasswordStage) (response : Response) :
    Nat → StageState → StageState × List Outcome
  | 0, st => (st, [])
  | k + 1, st =>
    let r := challenge_valid env stage st response
    let rest := run_valid env stage response k r.state
    (rest.1, r.outcome :: rest.2)

/-- A concrete backend environment used by the witnesses: `"a"` fails to
resolve, `"b"` always returns no user, `"c"` accepts exactly alice with
password `"correct"`, `"d"` raises permission denied, `"e"` accepts
anyone. -/
def envW : BackendEnv := fun p =>
  if p = "a" then none
  else if p = "b" then some (fun _ => .noUser)
  else if p = "c" then
    some (fun c =>
      if c = ⟨"alice", some "correct"⟩ then .found ⟨"alice", none⟩
      else .noUser)
  else if p = "d" then some (fun _ => .denied)
  else if p = "e" then some (fun _ => .found ⟨"eve", none⟩)
  else none

lemma authenticate_append_misses (env : BackendEnv) (creds : Credentials)
    (pre tail : List String)
    (h : ∀ p ∈ pre, env p = none ∨ ∃ f, env p = some f ∧ f creds = .noUser) :
    authenticate env (pre ++ tail) creds =
      ⟨(authenticate env tail creds).result,
        pre.filter (fun p => (env p).isSome) ++
          (authenticate env tail creds).invoked,
        (authenticate env tail creds).events⟩ := by
  revert h
  induction pre with
  | nil => intro _; simp
  | cons p pre ih =>
    intro h
    have hrec := ih (fun q hq => h q (List.mem_cons_of_mem p hq))
    rcases h p (List.mem_cons_self p pre) with hnone | ⟨f, hf, hfc⟩
    · simp [authenticate, hnone, hrec]
    · simp [authenticate, hf, hfc, hrec]

lemma authenticate_cons_found (env : BackendEnv) (creds : Credentials)
    (b : String) (post : List String) (g : Credentials → BackendBehavior)
    (u : User) (hb : env b = some g) (hg : g creds = .found u) :
    authenticate env (b :: post) creds =
      ⟨.ok { u with backend := some b }, [b], []⟩ := by
  simp [authenticate, hb, hg]

lemma authenticate_cons_denied (env : BackendEnv) (creds : Credentials)
    (b : String) (post : List String) (g : Credentials → BackendBehavior)
    (hb : env b = some g) (hg : g creds = .denied) :
    authenticate env (b :: post) creds = ⟨.denied, [b], []⟩ := by
  simp [authenticate, hb, hg]

lemma run_invalid_succ (threshold k : Nat) (s : Session) :
    run_invalid threshold (k + 1) s =
      ((run_invalid threshold k (challenge_invalid threshold s).1).1,
        (challenge_invalid threshold s).2 ::
          (run_invalid threshold k (challenge_invalid threshold s).1).2) := rfl

lemma run_invalid_locks (threshold : Nat) :
    ∀ (k : Nat) (s : Session), 1 ≤ k →
      s.user_invalid_tries.getD 0 + k = threshold + 1 →
      run_invalid threshold k s =
        (⟨none⟩, List.replicate (k - 1) Outcome.stageInvalid ++
          [Outcome.stageCancelled]) := by
  intro k
  induction k with
  | zero => intro s h1 _; exact absurd h1 (by omega)
  | succ k ih =>
    intro s _ hsum
    cases k with
    | zero =>
      have hgt : threshold < s.user_invalid_tries.getD 0 + 1 := by omega
      simp [run_invalid, challenge_invalid, hgt]
    | succ m =>
      have hle : ¬ threshold < s.user_invalid_tries.getD 0 + 1 := by omega
      have hrec := ih ⟨some (s.user_invalid_tries.getD 0 + 1)⟩ (by omega)
        (by simp; omega)
      have hstep : challenge_invalid threshold s =
          (⟨some (s.user_invalid_tries.getD 0 + 1)⟩, .stageInvalid) := by
        simp [challenge_invalid, hle]
      rw [run_invalid_succ, hstep]
      simp [hrec, List.replicate_succ]

lemma get_challenge_recovery_url (context : PlanContext) (flows : List Flow)
    (avatarOf : User → String) (reverseUrl : String → String) :
    (get_challenge context flows avatarOf reverseUrl).recovery_url =
      (match flows.filter
          (fun fl => fl.designation = FlowDesignation.recovery) with
        | [] => none
        | f :: _ => some (reverseUrl f.slug)) := by
  cases hf : flows.filter (fun fl => fl.designation = FlowDesignation.recovery)
    <;> cases hctx : context.pending_user
    <;> simp [get_challenge, hf, hctx]

/-- C1: for every ordered backend list and credentials, if the Nth backend
returns an identity and every backend before it either fails to resolve or
returns no identity, then `authenticate` returns that identity with its
`backend` attribute set to the Nth backend's identifier, emits no event,
and the invocation trace is exactly the resolvable earlier backends
followed by the accepting one — no backend after N is ever invoked. -/
theorem authenticate_first_match (env : BackendEnv) (creds : Credentials)
    (pre post : List String) (b : String) (g : Credentials → BackendBehavior)
    (u : User)
    (hpre : ∀ p ∈ pre, env p = none ∨
      ∃ f, env p = some f ∧ f creds = .noUser)
    (hb : env b = some g) (hg : g creds = .found u) :
    authenticate env (pre ++ b :: post) creds =
      ⟨.ok { u with backend := some b },
        pre.filter (fun p => (env p).isSome) ++ [b], []⟩ := by
  rw [authenticate_append_misses env creds pre (b :: post) hpre,
    authenticate_cons_found env creds b post g u hb hg]

/-- Witness for C1: with backend `"a"` unresolvable, `"b"` matching no
user, `"c"` accepting alice and `"e"` never reached, `authenticate` returns
alice tagged `"c"` and invokes only `"b"` and `"c"`. -/
theorem authenticate_first_match_witness :
    authenticate envW ["a", "b", "c", "e"] ⟨"alice", some "correct"⟩ =
      ⟨.ok ⟨"alice", some "c"⟩, ["b", "c"], []⟩ := by
  have hpre : ∀ p ∈ ["a", "b"], envW p = none ∨
      ∃ f, envW p = some f ∧
        f ⟨"alice", some "correct"⟩ = BackendBehavior.noUser := by
    intro p hp
    fin_cases hp
    · exact Or.inl rfl
    · exact Or.inr ⟨_, rfl, rfl⟩
  exact authenticate_first_match envW ⟨"alice", some "correct"⟩ ["a", "b"]
    ["e"] "c"
    (fun c =>
      if c = ⟨"alice", some "correct"⟩ then .found ⟨"alice", none⟩
      else .noUser)
    ⟨"alice", none⟩ hpre rfl rfl

/-- C2: starting from a session with no attempt counter, each invalid
submission increments the counter; `challenge_invalid` re-renders
(`stageInvalid`) on every call whose new count is at most
`failed_attempts_before_cancel` and, on the call whose count first exceeds
it, deletes the counter key and cancels. Running `threshold + 1` invalid
submissions from an absent counter yields `threshold` re-renders followed
by a cancellation, with the counter key absent at the end; in particular,
with `failed_attempts_before_cancel = 2`, three wrong-password submissions
through `challenge_valid` yield `stageInvalid, stageInvalid,
stageCancelled` and the counter key is absent after the third. -/
theorem challenge_invalid_lockout (threshold : Nat) :
    (∀ s : Session, s.user_invalid_tries.getD 0 + 1 ≤ threshold →
      challenge_invalid threshold s =
        (⟨some (s.user_invalid_tries.getD 0 + 1)⟩, .stageInvalid)) ∧
    (∀ s : Session, threshold < s.user_invalid_tries.getD 0 + 1 →
      challenge_invalid threshold s = (⟨none⟩, .stageCancelled)) ∧
    run_invalid threshold (threshold + 1) ⟨none⟩ =
      (⟨none⟩, List.replicate threshold Outcome.stageInvalid ++
        [Outcome.stageCancelled]) ∧
    run_valid envW ⟨["c"], 2⟩ ⟨some "wrong"⟩ 3
        ⟨⟨none⟩, ⟨some ⟨"alice", none⟩, none⟩⟩ =
      (⟨⟨none⟩, ⟨some ⟨"alice", none⟩, none⟩⟩,
        [.stageInvalid, .stageInvalid, .stageCancelled]) := by
  refine ⟨?_, ?_, ?_, ?_⟩
  · intro s h
    have hle : ¬ threshold < s.user_invalid_tries.getD 0 + 1 := by omega
    simp [challenge_invalid, hle]
  · intro s h
    simp [challenge_invalid, h]
  · have h := run_invalid_locks threshold (threshold + 1) ⟨none⟩ (by omega)
      (by simp)
    simpa using h
  · decide

/-- Witness for C2: with threshold 2 and an absent counter, the first
invalid submission sets the counter to 1 and re-renders. -/
theorem challenge_invalid_lockout_witness :
    challenge_invalid 2 ⟨none⟩ = (⟨some 1⟩, .stageInvalid) :=
  (challenge_invalid_lockout 2).1 ⟨none⟩ (by decide)

/-- C3: if some backend raises permission denied and every backend before
it fails to resolve or returns no identity, the chain stops there (no
later backend is invoked, even an accepting one), and `challenge_valid`
returns the cancellation outcome with the state — session counter
included — completely unchanged and no event emitted. -/
theorem denied_stops_chain (env : BackendEnv) (stage : PasswordStage)
    (st : StageState) (response : Response) (pending : User)
    (pre post : List String) (b : String) (g : Credentials → BackendBehavior)
    (hstage : stage.backends = pre ++ b :: post)
    (hpend : st.context.pending_user = some pending)
    (hpre : ∀ p ∈ pre, env p = none ∨
      ∃ f, env p = some f ∧
        f ⟨pending.username, response.password⟩ = .noUser)
    (hb : env b = some g)
    (hg : g ⟨pending.username, response.password⟩ = .denied) :
    challenge_valid env stage st response =
      ⟨st, .stageCancelled, true,
        pre.filter (fun p => (env p).isSome) ++ [b], []⟩ := by
  have hauth : authenticate env stage.backends
      ⟨pending.username, response.password⟩ =
      ⟨.denied, pre.filter (fun p => (env p).isSome) ++ [b], []⟩ := by
    rw [hstage,
      authenticate_append_misses env _ pre (b :: post) hpre,
      authenticate_cons_denied env _ b post g hb hg]
  simp [challenge_valid, hpend, hauth]

/-- Witness for C3: backend `"d"` denies alice; the accepting backend
`"e"` after it is never invoked, the attempt counter stays at 1, and the
outcome is cancellation. -/
theorem denied_stops_chain_witness :
    challenge_valid envW ⟨["a", "b", "d", "e"], 5⟩
      ⟨⟨some 1⟩, ⟨some ⟨"alice", none⟩, none⟩⟩ ⟨some "correct"⟩ =
      ⟨⟨⟨some 1⟩, ⟨some ⟨"alice", none⟩, none⟩⟩, .stageCancelled, true,
        ["b", "d"], []⟩ := by
  have hpre : ∀ p ∈ ["a", "b"], envW p = none ∨
      ∃ f, envW p = some f ∧
        f ⟨"alice", some "correct"⟩ = BackendBehavior.noUser := by
    intro p hp
    fin_cases hp
    · exact Or.inl rfl
    · exact Or.inr ⟨_, rfl, rfl⟩
  exact denied_stops_chain envW ⟨["a", "b", "d", "e"], 5⟩
    ⟨⟨some 1⟩, ⟨some ⟨"alice", none⟩, none⟩⟩ ⟨some "correct"⟩
    ⟨"alice", none⟩ ["a", "b"] ["e"] "d" (fun _ => .denied)
    rfl rfl hpre rfl rfl

/-- C4: with no pending-user entry in the plan context, `challenge_valid`
cancels the pipeline without ever calling the backend-chain authenticator:
no backend is invoked, no event is emitted, and the state is unchanged. -/
theorem no_pending_user_cancels (env : BackendEnv) (stage : PasswordStage)
    (st : StageState) (response : Response)
    (h : st.context.pending_user = none) :
    challenge_valid env stage st response =
      ⟨st, .stageCancelled, false, [], []⟩ := by
  simp [challenge_valid, h]

/-- Witness for C4: a concrete state with no pending user cancels without
invoking any backend. -/
theorem no_pending_user_cancels_witness :
    challenge_valid envW ⟨["c"], 2⟩ ⟨⟨some 1⟩, ⟨none, none⟩⟩
      ⟨some "correct"⟩ =
      ⟨⟨⟨some 1⟩, ⟨none, none⟩⟩, .stageCancelled, false, [], []⟩ :=
  no_pending_user_cancels envW ⟨["c"], 2⟩ ⟨⟨some 1⟩, ⟨none, none⟩⟩
    ⟨some "correct"⟩ rfl

/-- C5: when the chain accepts (the Nth backend returns an identity after
the earlier ones miss), `challenge_valid` overwrites `pending_user` with
the returned identity (annotated with the accepting backend), writes the
accepting backend's identifier under the distinct `user_backend` key, and
returns `stageOk`, leaving the session untouched. -/
theorem success_updates_context (env : BackendEnv) (stage : PasswordStage)
    (st : StageState) (response : Response) (pending : User)
    (pre post : List String) (b : String) (g : Credentials → BackendBehavior)
    (u : User)
    (hstage : stage.backends = pre ++ b :: post)
    (hpend : st.context.pending_user = some pending)
    (hpre : ∀ p ∈ pre, env p = none ∨
      ∃ f, env p = some f ∧
        f ⟨pending.username, response.password⟩ = .noUser)
    (hb : env b = some g)
    (hg : g ⟨pending.username, response.password⟩ = .found u) :
    challenge_valid env stage st response =
      ⟨⟨st.session, ⟨some { u with backend := some b }, some b⟩⟩, .stageOk,
        true, pre.filter (fun p => (env p).isSome) ++ [b], []⟩ := by
  have hauth : authenticate env stage.backends
      ⟨pending.username, response.password⟩ =
      ⟨.ok { u with backend := some b },
        pre.filter (fun p => (env p).isSome) ++ [b], []⟩ := by
    rw [hstage,
      authenticate_append_misses env _ pre (b :: post) hpre,
      authenticate_cons_found env _ b post g u hb hg]
  simp [challenge_valid, hpend, hauth]

/-- Witness for C5: backend `"c"` verifies password `"correct"` for alice;
submitting it yields `stageOk`, `pending_user` updated to the identity
tagged `"c"`, and `user_backend = "c"`. -/
theorem success_updates_context_witness :
    challenge_valid envW ⟨["c"], 2⟩
      ⟨⟨none⟩, ⟨some ⟨"alice", none⟩, none⟩⟩ ⟨some "correct"⟩ =
      ⟨⟨⟨none⟩, ⟨some ⟨"alice", some "c"⟩, some "c"⟩⟩, .stageOk, true,
        ["c"], []⟩ :=
  success_updates_context envW ⟨["c"], 2⟩
    ⟨⟨none⟩, ⟨some ⟨"alice", none⟩, none⟩⟩ ⟨some "correct"⟩
    ⟨"alice", none⟩ [] [] "c"
    (fun c =>
      if c = ⟨"alice", some "correct"⟩ then .found ⟨"alice", none⟩
      else .noUser)
    ⟨"alice", none⟩ rfl rfl (by intro p hp; exact absurd hp (by simp))
    rfl rfl

/-- C6: whenever `challenge_invalid` re-renders the challenge
(`stageInvalid`) rather than cancelling, the stored attempt counter does
not exceed the threshold; the call that would push the counter past the
threshold cancels instead. Stated over every session state, which covers
every reachable one. -/
theorem counter_bounded_while_reprompting (threshold : Nat) (s : Session) :
    ((challenge_invalid threshold s).2 = .stageInvalid →
      ∀ t, (challenge_invalid threshold s).1.user_invalid_tries = some t →
        t ≤ threshold) ∧
    (threshold < s.user_invalid_tries.getD 0 + 1 →
      (challenge_invalid threshold s).2 = .stageCancelled) := by
  constructor
  · intro hout t ht
    by_cases hgt : threshold < s.user_invalid_tries.getD 0 + 1
    · simp [challenge_invalid, hgt] at hout
    · simp [challenge_invalid, hgt] at ht
      omega
  · intro hgt
    simp [challenge_invalid, hgt]

/-- Witness for C6: at threshold 2 with the counter at 2, the next step
cancels rather than re-prompting. -/
theorem counter_bounded_while_reprompting_witness :
    (challenge_invalid 2 ⟨some 2⟩).2 = .stageCancelled :=
  (counter_bounded_while_reprompting 2 ⟨some 2⟩).2 (by decide)

/-- Counterexample for C7: with no pending user in the plan context (and
no flows at all), challenge issuance still builds and returns a full
`PasswordChallenge` payload — it does not short-circuit to cancellation. -/
theorem challenge_built_without_pending_user :
    issue_challenge ⟨none, none⟩ [] (fun _ => "") (fun s => s) =
      .challenge ⟨"native", "ak-stage-password", none, none, none⟩ ∧
    issue_challenge ⟨none, none⟩ [] (fun _ => "") (fun s => s) ≠
      .cancelled := by
  exact ⟨rfl, by decide⟩

/-- C7 as amended: when the plan context has no pending-user entry,
`get_challenge` still builds and returns a challenge payload — with the
`pending_user` and `pending_user_avatar` fields simply absent — and never
short-circuits to cancellation at challenge-build time; the missing-user
cancellation is deferred to `challenge_valid`. -/
theorem get_challenge_without_pending_user (context : PlanContext)
    (flows : List Flow) (avatarOf : User → String)
    (reverseUrl : String → String)
    (h : context.pending_user = none) :
    ∃ c : PasswordChallenge,
      issue_challenge context flows avatarOf reverseUrl = .challenge c ∧
      c.pending_user = none ∧ c.pending_user_avatar = none := by
  cases hf : flows.filter (fun fl => fl.designation = FlowDesignation.recovery)
    <;> exact ⟨_, rfl, by simp [get_challenge, h, hf], by
      simp [get_challenge, h, hf]⟩

/-- Witness for C7 (amended): with an empty context and a recovery flow
present, issuance still yields a challenge whose user fields are absent. -/
theorem get_challenge_without_pending_user_witness :
    ∃ c : PasswordChallenge,
      issue_challenge ⟨none, none⟩ [⟨"recovery-flow", .recovery⟩]
        (fun _ => "") (fun s => s) = .challenge c ∧
      c.pending_user = none ∧ c.pending_user_avatar = none :=
  get_challenge_without_pending_user ⟨none, none⟩
    [⟨"recovery-flow", .recovery⟩] (fun _ => "") (fun s => s) rfl

/-- C8: when every backend either fails to resolve or returns no identity,
`authenticate` returns no identity and emits exactly one login-failed
event whose credentials retain the username but carry the cleansed
substitute in place of the password value. -/
theorem exhausted_fires_failure_signal (env : BackendEnv)
    (backends : List String) (creds : Credentials)
    (h : ∀ p ∈ backends, env p = none ∨
      ∃ f, env p = some f ∧ f creds = .noUser) :
    authenticate env backends creds =
      ⟨.noneFound, backends.filter (fun p => (env p).isSome),
        [.loginFailed ⟨creds.username, CLEANSED_SUBSTITUTE⟩]⟩ := by
  have happ := authenticate_append_misses env creds backends [] h
  simpa [authenticate, cleanCredentials] using happ

/-- Witness for C8: alice submits a wrong password against backends
`"a"`, `"b"`, `"c"`; all miss, one failure event fires with the username
kept and the password scrubbed. -/
theorem exhausted_fires_failure_signal_witness :
    authenticate envW ["a", "b", "c"] ⟨"alice", some "wrong"⟩ =
      ⟨.noneFound, ["b", "c"],
        [.loginFailed ⟨"alice", CLEANSED_SUBSTITUTE⟩]⟩ := by
  have h : ∀ p ∈ ["a", "b", "c"], envW p = none ∨
      ∃ f, envW p = some f ∧
        f ⟨"alice", some "wrong"⟩ = BackendBehavior.noUser := by
    intro p hp
    fin_cases hp
    · exact Or.inl rfl
    · exact Or.inr ⟨_, rfl, rfl⟩
    · exact Or.inr ⟨_, rfl, rfl⟩
  exact exhausted_fires_failure_signal envW ["a", "b", "c"]
    ⟨"alice", some "wrong"⟩ h

/-- C9: the `recovery_url` field is present in the built challenge exactly
when some recovery-designated flow exists at challenge-build time; when
none exists the field is absent and the challenge is still returned. -/
theorem recovery_url_iff_flow (context : PlanContext) (flows : List Flow)
    (avatarOf : User → String) (reverseUrl : String → String) :
    (get_challenge context flows avatarOf reverseUrl).recovery_url.isSome =
      true ↔
      ∃ f ∈ flows, f.designation = FlowDesignation.recovery := by
  rw [get_challenge_recovery_url]
  cases hf : flows.filter
      (fun fl => fl.designation = FlowDesignation.recovery) with
  | nil =>
    simp only [Option.isSome_none]
    constructor
    · intro hfalse; exact absurd hfalse (by simp)
    · rintro ⟨f, hmem, hdes⟩
      have := List.filter_eq_nil_iff.mp hf f hmem
      simp [hdes] at this
  | cons f rest =>
    simp only [Option.isSome_some, true_iff]
    have hmem : f ∈ flows.filter
        (fun fl => fl.designation = FlowDesignation.recovery) := by
      rw [hf]; exact List.mem_cons_self f rest
    have h2 := List.mem_filter.mp hmem
    exact ⟨f, h2.1, by simpa using h2.2⟩

/-- Witness for C9: with exactly one recovery-designated flow, the built
challenge carries a recovery URL. -/
theorem recovery_url_iff_flow_witness :
    (get_challenge ⟨none, none⟩ [⟨"recovery-flow", .recovery⟩]
      (fun _ => "") (fun s => s)).recovery_url.isSome = true :=
  (recovery_url_iff_flow ⟨none, none⟩ [⟨"recovery-flow", .recovery⟩]
    (fun _ => "") (fun s => s)).mpr
    ⟨⟨"recovery-flow", .recovery⟩, by simp, rfl⟩

/-- C10: on the permission-denied path, `challenge_valid` leaves the
session (the attempt-counter key included) and the plan context
(`pending_user` and `user_backend`) entirely unchanged — the counter is
neither incremented nor deleted. -/
theorem denied_leaves_state_unchanged (env : BackendEnv)
    (stage : PasswordStage) (st : StageState) (response : Response)
    (pending : User)
    (hpend : st.context.pending_user = some pending)
    (hres : (authenticate env stage.backends
      ⟨pending.username, response.password⟩).result = .denied) :
    (challenge_valid env stage st response).state.session = st.session ∧
    (challenge_valid env stage st response).state.context.pending_user =
      st.context.pending_user ∧
    (challenge_valid env stage st response).state.context.user_backend =
      st.context.user_backend := by
  simp [challenge_valid, hpend, hres]

/-- Witness for C10: backend `"d"` denies alice while the counter stands
at 1; after the call the counter is still 1 and the context keys are
untouched. -/
theorem denied_leaves_state_unchanged_witness :
    (challenge_valid envW ⟨["d"], 5⟩
        ⟨⟨some 1⟩, ⟨some ⟨"alice", none⟩, none⟩⟩
        ⟨some "pw"⟩).state.session = ⟨some 1⟩ ∧
    (challenge_valid envW ⟨["d"], 5⟩
        ⟨⟨some 1⟩, ⟨some ⟨"alice", none⟩, none⟩⟩
        ⟨some "pw"⟩).state.context.pending_user = some ⟨"alice", none⟩ ∧
    (challenge_valid envW ⟨["d"], 5⟩
        ⟨⟨some 1⟩, ⟨some ⟨"alice", none⟩, none⟩⟩
        ⟨some "pw"⟩).state.context.user_backend = none :=
  denied_leaves_state_unchanged envW ⟨["d"], 5⟩
    ⟨⟨some 1⟩, ⟨some ⟨"alice", none⟩, none⟩⟩ ⟨some "pw"⟩
    ⟨"alice", none⟩ rfl rfl

end Authentik
